import Mathlib

/-!
Verification of the deal.II–preCICE coupling adapter
(src/adapter/adapter_smp.h and src/adapter/precice_parameter.h).

The development shallowly embeds the adapter: the preCICE solver interface
is modelled as an explicit state (a vertex-handle counter plus logs of the
registration and write calls), the deal.II mesh traversal as a list of
boundary faces with a per-face quadrature-point coordinate function, and
the adapter object as a record of its data members.  Fatal assertions
(Assert / AssertThrow) are modelled as Option / Except failures.
-/

namespace AdapterSMP

/-- One boundary face as seen by the traversal
"for cell in active_cell_iterators, for face in face_iterators":
whether it is at the boundary, its boundary id, and the global face index
used as the key of the read-side id map. -/
structure Face where
  at_boundary : Bool
  boundary_id : Nat
  face_index : Nat
deriving DecidableEq

/-- The mesh-side inputs of the adapter: the flattened cell/face traversal
in its fixed deterministic order, and the physical coordinates of the
quadrature points of each face (fe_face_values.quadrature_point, indexed
by the face index and the quadrature index).  The finite-element side is
an external collaborator, so coordinates are abstract data. -/
structure Mesh where
  faces : List Face
  qpoint : Nat → Nat → List ℚ

/-- The condition of the source guards
"face->at_boundary() == true && face->boundary_id() == dealii_boundary_interface_id". -/
def faceMatches (interface_id : Nat) (f : Face) : Bool :=
  f.at_boundary && f.boundary_id == interface_id

/-- Model of the preCICE solver interface state: a counter handing out
vertex handles, the log of setMeshVertex calls (mesh id and coordinates,
in call order; the handle of an entry is its position), and the log of
writeVectorData calls (data id, vertex handle, components). -/
structure PreciceState where
  next_vertex_id : Nat
  registered : List (Nat × List ℚ)
  written : List (Nat × Nat × List ℚ)
deriving DecidableEq

/-- precice.setMeshVertex: registers one coordinate tuple and returns the
library-assigned integer handle. -/
def setMeshVertex (p : PreciceState) (mesh_id : Nat) (coords : List ℚ) :
    Nat × PreciceState :=
  (p.next_vertex_id,
   { next_vertex_id := p.next_vertex_id + 1
     registered := p.registered ++ [(mesh_id, coords)]
     written := p.written })

/-- precice.writeVectorData: hands one fixed-size component vector for one
vertex handle to the library. -/
def writeVectorData (p : PreciceState) (data_id : Nat) (handle : Nat)
    (components : List ℚ) : PreciceState :=
  { next_vertex_id := p.next_vertex_id
    registered := p.registered
    written := p.written ++ [(data_id, handle, components)] }

/-- std::map insert-or-assign semantics of operator[] on an association
list ordered by first insertion. -/
def mapInsert (m : List (Nat × Nat)) (k v : Nat) : List (Nat × Nat) :=
  match m with
  | [] => [(k, v)]
  | (k', v') :: rest =>
    if k = k' then (k, v) :: rest else (k', v') :: mapInsert rest k v

/-- std::map::at semantics: some value for a present key, none (an
std::out_of_range exception) for a missing key; never inserts. -/
def mapAt (m : List (Nat × Nat)) (k : Nat) : Option Nat :=
  match m with
  | [] => none
  | (k', v') :: rest => if k = k' then some v' else mapAt rest k

/-- The data members of the Adapter object that the modelled member
functions touch.  V is the solver's VectorType; old_state_data and
old_time_value form the checkpoint snapshot. -/
structure AdapterState (V : Type) where
  dealii_boundary_interface_id : Nat
  read_mesh_id : Nat
  write_mesh_id : Nat
  read_data_id : Nat
  write_data_id : Nat
  read_nodes_ids : List Nat
  write_nodes_ids : List Nat
  read_id_map : List (Nat × Nat)
  read_data : List ℚ
  old_state_data : List V
  old_time_value : ℚ

/-- The Adapter constructor: stores the interface id and leaves every
container empty.  The mesh/data ids are set later (modelled as 0 here) and
old_time_value is an uninitialized double, modelled by the explicit
parameter uninit_time. -/
def mkAdapter (V : Type) (interface_id : Nat) (uninit_time : ℚ) :
    AdapterState V :=
  { dealii_boundary_interface_id := interface_id
    read_mesh_id := 0
    write_mesh_id := 0
    read_data_id := 0
    write_data_id := 0
    read_nodes_ids := []
    write_nodes_ids := []
    read_id_map := []
    read_data := []
    old_state_data := []
    old_time_value := uninit_time }

/-- save_current_state_if_required (adapter_smp.h lines 319-340).
signaled models precice.isActionRequired(actionWriteIterationCheckpoint).
When signaled, old_state_data is resized to the caller's list and every
caller vector is copied in, and old_time_value takes the current time;
otherwise nothing happens.  The caller's vectors and time are never
written by this function. -/
def save_current_state_if_required {V : Type} (signaled : Bool)
    (a : AdapterState V) (state_variables : List V) (current_time : ℚ) :
    AdapterState V :=
  if signaled then
    { a with old_state_data := state_variables
             old_time_value := current_time }
  else a

/-- reload_old_state_if_required (adapter_smp.h lines 344-369).
signaled models precice.isActionRequired(actionReadIterationCheckpoint).
When signaled, the Assert that the caller's list has the length of the
stored snapshot is modelled as returning none on failure; on success every
caller vector is overwritten from the snapshot and the time object is set
to old_time_value.  The result carries the adapter state, the caller's
vectors and the caller's time after the call. -/
def reload_old_state_if_required {V : Type} (signaled : Bool)
    (a : AdapterState V) (state_variables : List V) (current_time : ℚ) :
    Option (AdapterState V × List V × ℚ) :=
  if signaled then
    if state_variables.length = a.old_state_data.length then
      some (a, a.old_state_data, a.old_time_value)
    else none
  else some (a, state_variables, current_time)

/-- The inner quadrature-point loop of set_mesh_vertices: for Q remaining
points starting at quadrature index q, read the physical coordinates,
register them with the library and append the returned handle. -/
def registerPoints (mesh_id : Nat) (coords : Nat → List ℚ) :
    Nat → Nat → List Nat → PreciceState → List Nat × PreciceState
  | _q, 0, ids, p => (ids, p)
  | q, Nat.succ k, ids, p =>
    let r := setMeshVertex p mesh_id (coords q)
    registerPoints mesh_id coords (q + 1) k (ids ++ [r.1]) r.2

/-- The face loop of set_mesh_vertices: traverse the faces in order; on a
matching face, first (read side only) record the current vertex-set length
in the id map under the face index, then register the Q quadrature points.
Note that the vertex-handle list is only appended to, never cleared. -/
def smvFaces (interface_id mesh_id : Nat) (qp : Nat → Nat → List ℚ)
    (Q : Nat) (is_read : Bool) :
    List Face → List Nat → List (Nat × Nat) → PreciceState →
    List Nat × List (Nat × Nat) × PreciceState
  | [], ids, idmap, p => (ids, idmap, p)
  | f :: rest, ids, idmap, p =>
    if faceMatches interface_id f then
      let idmap' :=
        if is_read then mapInsert idmap f.face_index ids.length else idmap
      let r := registerPoints mesh_id (qp f.face_index) 0 Q ids p
      smvFaces interface_id mesh_id qp Q is_read rest r.1 idmap' r.2
    else
      smvFaces interface_id mesh_id qp Q is_read rest ids idmap p

/-- set_mesh_vertices (adapter_smp.h lines 445-489): chooses the mesh id
and the target handle list by direction and runs the face loop; the read
side also updates the face-to-vertex index map. -/
def set_mesh_vertices {V : Type} (a : AdapterState V) (p : PreciceState)
    (mesh : Mesh) (Q : Nat) (is_read_mesh : Bool) :
    AdapterState V × PreciceState :=
  let mesh_id := if is_read_mesh then a.read_mesh_id else a.write_mesh_id
  let ids := if is_read_mesh then a.read_nodes_ids else a.write_nodes_ids
  let r := smvFaces a.dealii_boundary_interface_id mesh_id mesh.qpoint Q
    is_read_mesh mesh.faces ids a.read_id_map p
  if is_read_mesh then
    ({ a with read_nodes_ids := r.1, read_id_map := r.2.1 }, r.2.2)
  else
    ({ a with write_nodes_ids := r.1 }, r.2.2)

/-- The inner quadrature-point loop of write_all_quadrature_nodes: for
each of the k remaining points, Assert(index != write_nodes_ids.end())
— modelled as none when the remaining handle list is empty — then write
the dim field components of the point to the library under the current
handle and advance the lockstep iterator. -/
def wqnPoints (data_id : Nat) (vals : Nat → List ℚ) :
    Nat → Nat → List Nat → PreciceState → Option (List Nat × PreciceState)
  | _q, 0, index, p => some (index, p)
  | q, Nat.succ k, index, p =>
    match index with
    | [] => none
    | h :: rest =>
      wqnPoints data_id vals (q + 1) k rest (writeVectorData p data_id h (vals q))

/-- The face loop of write_all_quadrature_nodes: re-traverse the faces in
the enumeration order and push the field values of each matching face's
quadrature points, consuming the write vertex set in lockstep. -/
def wqnFaces (interface_id data_id : Nat) (vals : Nat → Nat → List ℚ)
    (Q : Nat) :
    List Face → List Nat → PreciceState → Option (List Nat × PreciceState)
  | [], index, p => some (index, p)
  | f :: rest, index, p =>
    if faceMatches interface_id f then
      match wqnPoints data_id (vals f.face_index) 0 Q index p with
      | none => none
      | some r => wqnFaces interface_id data_id vals Q rest r.1 r.2
    else
      wqnFaces interface_id data_id vals Q rest index p

/-- write_all_quadrature_nodes (adapter_smp.h lines 371-414).  The field
evaluation fe_face_values.get_function_values on the solution vector is an
external collaborator, abstracted as vals: face index and quadrature index
to the dim extracted components. -/
def write_all_quadrature_nodes {V : Type} (a : AdapterState V)
    (p : PreciceState) (mesh : Mesh) (vals : Nat → Nat → List ℚ)
    (Q : Nat) : Option PreciceState :=
  match wqnFaces a.dealii_boundary_interface_id a.write_data_id vals Q
      mesh.faces a.write_nodes_ids p with
  | none => none
  | some r => some r.2

/-- read_on_quadrature_point_with_ID (adapter_smp.h lines 431-441):
AssertIndexRange(ID_index * dim + (dim - 1), read_data.size()) — modelled
as none on failure — then data[d] = read_data[ID_index * dim + d] for
each component d.  The unchecked operator[] of the source is rendered by
getD; the in-range theorem shows the default is never taken under the
assertion. -/
def read_on_quadrature_point_with_ID {V : Type} (dim : Nat)
    (a : AdapterState V) (ID_index : Nat) : Option (List ℚ) :=
  if ID_index * dim + (dim - 1) < a.read_data.length then
    some ((List.range dim).map (fun d => a.read_data.getD (ID_index * dim + d) 0))
  else none

/-- get_node_id (adapter_smp.h lines 491-497): read_id_map.at(face_id). -/
def get_node_id {V : Type} (a : AdapterState V) (face_id : Nat) :
    Option Nat :=
  mapAt a.read_id_map face_id

/-- std::vector::resize on the read buffer: keeps the existing prefix and
value-initializes (0.0) any new elements. -/
def resizeFill (l : List ℚ) (n : Nat) : List ℚ :=
  l.take n ++ List.replicate (n - l.length) 0

/-- precice.readBlockVectorData into the read buffer: overwrites the
buffer contents in place with library-supplied values; the length is
unchanged. -/
def readBlockVectorData (buffer : List ℚ) (incoming : Nat → ℚ) : List ℚ :=
  (List.range buffer.length).map incoming

/-- The initialize member function (adapter_smp.h lines 224-280), named
initializeAdapter here.  precice_dims models precice.getDimensions();
mesh_ids and data_ids model the getMeshID/getDataID answers; the Bool
models isActionRequired(actionWriteInitialData); incoming models the data
delivered by readBlockVectorData.  The two AssertThrow guards become
Except errors; then the write and read meshes are enumerated, the read
buffer resized to (number of read nodes) * dim, initial data written if
required, and the read buffer filled once from the library. -/
def initializeAdapter {V : Type} (dim precice_dims : Nat)
    (a : AdapterState V) (p : PreciceState) (mesh : Mesh)
    (write_quadrature_size read_quadrature_size : Nat)
    (mesh_ids data_ids : Nat × Nat) (write_initial_data_required : Bool)
    (vals : Nat → Nat → List ℚ) (incoming : Nat → ℚ) :
    Except String (AdapterState V × PreciceState) :=
  if dim ≠ precice_dims then
    .error "The dimension of your solver needs to be consistent with the dimension specified in your precice-config file."
  else if dim ≤ 1 then
    .error "ExcNotImplemented"
  else
    let a0 := { a with read_mesh_id := mesh_ids.1
                       write_mesh_id := mesh_ids.2
                       read_data_id := data_ids.1
                       write_data_id := data_ids.2 }
    let r1 := set_mesh_vertices a0 p mesh write_quadrature_size false
    let r2 := set_mesh_vertices r1.1 r1.2 mesh read_quadrature_size true
    let a3 := { r2.1 with
      read_data := resizeFill r2.1.read_data (r2.1.read_nodes_ids.length * dim) }
    match (if write_initial_data_required then
             write_all_quadrature_nodes a3 r2.2 mesh vals write_quadrature_size
           else some r2.2) with
    | none => .error "ExcInternalError"
    | some p3 =>
      .ok ({ a3 with read_data := readBlockVectorData a3.read_data incoming },
           p3)

/-- PreciceAdapterConfiguration::parse_parameters
(precice_parameter.h lines 91-131), restricted to the mesh-name
validation: the inputs are the three strings read from the parameter
handler (each defaulting to "default" when not set by the user); the
result is none when an AssertThrow fires and otherwise the final
(read_mesh_name, write_mesh_name) pair. -/
def parse_parameters (mesh_name read_mesh_name write_mesh_name : String) :
    Option (String × String) :=
  if mesh_name ≠ "default" then
    if mesh_name = read_mesh_name then none
    else some (mesh_name, mesh_name)
  else
    if ¬ (read_mesh_name ≠ "default" ∧ write_mesh_name ≠ "default") then none
    else if mesh_name ≠ "default" then none
    else some (read_mesh_name, write_mesh_name)


/-- The registration log that one run of the face loop appends, for a given
list of matching faces: for each face in traversal order, its Q quadrature
points in quadrature-index order. -/
def facesLog (mesh_id : Nat) (qp : Nat → Nat → List ℚ) (Q : Nat) :
    List Face → List (Nat × List ℚ)
  | [] => []
  | f :: rest =>
    (List.range' 0 Q).map (fun j => (mesh_id, qp f.face_index j)) ++
      facesLog mesh_id qp Q rest

/-- The face-to-vertex index map produced by the face loop, tracked with
the running vertex-set length. -/
def smvMapAux (interface_id Q : Nat) (is_read : Bool) :
    List Face → Nat → List (Nat × Nat) → List (Nat × Nat)
  | [], _len, idmap => idmap
  | f :: rest, len, idmap =>
    if faceMatches interface_id f then
      smvMapAux interface_id Q is_read rest (len + Q)
        (if is_read then mapInsert idmap f.face_index len else idmap)
    else smvMapAux interface_id Q is_read rest len idmap

/-- The face-to-offset map the read-side enumeration is expected to
produce when it starts from an empty map: the i-th matching face is mapped
to start + i * Q. -/
def expectedMap (interface_id Q : Nat) : List Face → Nat → List (Nat × Nat)
  | [], _start => []
  | f :: rest, start =>
    if faceMatches interface_id f then
      (f.face_index, start) :: expectedMap interface_id Q rest (start + Q)
    else expectedMap interface_id Q rest start

/-- A small concrete mesh for witnesses: one face on the coupling boundary
(boundary id 7), one interior face, one face on another boundary. -/
def sampleMesh : Mesh :=
  { faces := [{ at_boundary := true, boundary_id := 7, face_index := 0 },
              { at_boundary := false, boundary_id := 7, face_index := 1 },
              { at_boundary := true, boundary_id := 3, face_index := 2 }]
    qpoint := fun i q => [(i : ℚ), (q : ℚ)] }

/-- A fresh preCICE state: no vertices registered, nothing written. -/
def freshPrecice : PreciceState :=
  { next_vertex_id := 0, registered := [], written := [] }

/-- Closed form of the quadrature-point registration loop: it appends k
consecutive library handles to the handle list and logs the k coordinate
tuples in quadrature order. -/
theorem registerPoints_eq (mesh_id : Nat) (coords : Nat → List ℚ) :
    ∀ (k q : Nat) (ids : List Nat) (p : PreciceState),
    registerPoints mesh_id coords q k ids p =
      (ids ++ List.range' p.next_vertex_id k,
       { next_vertex_id := p.next_vertex_id + k
         registered := p.registered ++
           (List.range' q k).map (fun j => (mesh_id, coords j))
         written := p.written }) := by
  intro k
  induction k with
  | zero => intro q ids p; simp [registerPoints]
  | succ k ih =>
    intro q ids p
    simp only [registerPoints]
    rw [ih]
    simp [setMeshVertex, List.range'_succ, List.append_assoc,
      Nat.add_assoc, Nat.add_comm, Nat.add_left_comm]

/-- Closed form of the face loop of set_mesh_vertices: with N the number
of matching faces, it appends N * Q consecutive handles to the handle
list, logs the per-face quadrature points face by face, and threads the
index map through smvMapAux. -/
theorem smvFaces_eq (interface_id mesh_id : Nat) (qp : Nat → Nat → List ℚ)
    (Q : Nat) (is_read : Bool) :
    ∀ (faces : List Face) (ids : List Nat) (idmap : List (Nat × Nat))
      (p : PreciceState),
    smvFaces interface_id mesh_id qp Q is_read faces ids idmap p =
      (ids ++ List.range' p.next_vertex_id
        ((faces.filter (faceMatches interface_id)).length * Q),
       smvMapAux interface_id Q is_read faces ids.length idmap,
       { next_vertex_id := p.next_vertex_id +
           (faces.filter (faceMatches interface_id)).length * Q
         registered := p.registered ++
           facesLog mesh_id qp Q (faces.filter (faceMatches interface_id))
         written := p.written }) := by
  intro faces
  induction faces with
  | nil => intro ids idmap p; simp [smvFaces, smvMapAux, facesLog]
  | cons f rest ih =>
    intro ids idmap p
    by_cases hf : faceMatches interface_id f = true
    · simp only [smvFaces, hf, if_true]
      rw [registerPoints_eq, ih]
      simp [smvMapAux, facesLog, hf, List.filter_cons, Nat.succ_mul,
        List.append_assoc, Nat.add_assoc, Nat.add_comm, Nat.add_left_comm]
      rw [Nat.add_comm Q p.next_vertex_id, List.range'_append_1, Nat.add_comm]
    · simp only [smvFaces, hf, if_false, Bool.false_eq_true]
      rw [ih]
      simp [smvMapAux, facesLog, hf, List.filter_cons]

/-- Claim C1: saving the caller state with the save action signaled, then
mutating the caller's vectors and time arbitrarily, then reloading with
the restore action signaled and a list of the same length, restores every
caller vector and the simulation time exactly to their values at the
moment of the save; this holds for any number of state vectors, zero
included. -/
theorem C1_checkpoint_roundtrip {V : Type} (a : AdapterState V)
    (vars : List V) (t : ℚ) (mutated : List V) (t' : ℚ)
    (h : mutated.length = vars.length) :
    reload_old_state_if_required true
      (save_current_state_if_required true a vars t) mutated t' =
      some (save_current_state_if_required true a vars t, vars, t) := by
  simp [reload_old_state_if_required, save_current_state_if_required, h]

/-- Witness for C1 at the spec's own scenario: vectors [1,2,3] and time 5
saved, mutated to [9,9,9] and 7, restored back to [1,2,3] and 5. -/
theorem C1_checkpoint_roundtrip_witness :
    ([9, 9, 9] : List ℚ).length = ([1, 2, 3] : List ℚ).length ∧
    reload_old_state_if_required true
      (save_current_state_if_required true (mkAdapter ℚ 0 0) [1, 2, 3] 5)
      [9, 9, 9] 7 =
      some (save_current_state_if_required true (mkAdapter ℚ 0 0) [1, 2, 3] 5,
            [1, 2, 3], 5) :=
  ⟨by decide,
   C1_checkpoint_roundtrip (mkAdapter ℚ 0 0) [1, 2, 3] 5 [9, 9, 9] 7 (by decide)⟩

/-- Claim C6: when the corresponding checkpoint action is not signaled,
save_current_state_if_required returns the adapter unchanged (in
particular old_state_data and old_time_value keep their values) and
reload_old_state_if_required returns the adapter, the caller's vectors and
the caller's time unchanged: both are no-ops. -/
theorem C6_checkpoint_noop_when_not_signaled {V : Type} (a : AdapterState V)
    (vars : List V) (t : ℚ) (vars' : List V) (t' : ℚ) :
    save_current_state_if_required false a vars t = a ∧
    reload_old_state_if_required false a vars' t' = some (a, vars', t') := by
  constructor <;>
    simp [save_current_state_if_required, reload_old_state_if_required]

/-- Counterexample to claim C3 as stated: on a freshly constructed adapter
(no save has ever occurred; the stored snapshot is the empty list), a
restore with the restore action signaled and an empty state-vector list
does not raise the fatal consistency error: the length assertion passes
vacuously and the call completes, setting the caller's time to the
adapter's indeterminate initial old_time_value (here 0). -/
theorem C3_counterexample :
    reload_old_state_if_required true (mkAdapter ℚ 0 0) ([] : List ℚ) 5 =
      some (mkAdapter ℚ 0 0, [], 0) := by
  rfl

/-- Claim C3 amended: with the restore action signaled, a restore whose
state-vector list length differs from the stored snapshot's length (which
is zero before any save) raises the fatal consistency error, and a restore
with a matching length overwrites the whole caller list from the snapshot
and the time from the stored time — never a truncated, padded or partial
state.  A restore before any save is therefore caught exactly when the
caller's list is nonempty; with an empty list it passes undetected. -/
theorem C3_restore_length_check {V : Type} (a : AdapterState V)
    (vars : List V) (t : ℚ) :
    (vars.length ≠ a.old_state_data.length →
      reload_old_state_if_required true a vars t = none) ∧
    (vars.length = a.old_state_data.length →
      reload_old_state_if_required true a vars t =
        some (a, a.old_state_data, a.old_time_value)) := by
  constructor <;> intro h <;> simp [reload_old_state_if_required, h]

/-- Witness for the amended C3: after saving two vectors, restoring with a
one-vector list is the fatal error. -/
theorem C3_restore_length_check_witness :
    reload_old_state_if_required true
      (save_current_state_if_required true (mkAdapter ℚ 0 0) [1, 2] 3)
      [9] 4 = none :=
  (C3_restore_length_check
    (save_current_state_if_required true (mkAdapter ℚ 0 0) [1, 2] 3) [9] 4).1
    (by decide)

/-- Claim C9: read_on_quadrature_point_with_ID asserts
ID_index * dim + (dim - 1) < read_data.size() before reading; under that
precondition the call succeeds and every component access
ID_index * dim + d with d < dim is in range.  Moreover, with the buffer
sized to (number of read vertices) * dim — as initializeAdapter sizes it —
the precondition holds for every vertex index ID_index below the number of
read vertices whenever dim is positive. -/
theorem C9_read_with_ID_bounds {V : Type} (dim : Nat) (a : AdapterState V)
    (ID_index : Nat) :
    (ID_index * dim + (dim - 1) < a.read_data.length →
      read_on_quadrature_point_with_ID dim a ID_index =
        some ((List.range dim).map
          (fun d => a.read_data.getD (ID_index * dim + d) 0)) ∧
      (∀ d, d < dim → ID_index * dim + d < a.read_data.length)) ∧
    (a.read_data.length = a.read_nodes_ids.length * dim →
      ID_index < a.read_nodes_ids.length → 1 ≤ dim →
      ID_index * dim + (dim - 1) < a.read_data.length) := by
  constructor
  · intro h
    refine ⟨by simp [read_on_quadrature_point_with_ID, h], ?_⟩
    intro d hd
    omega
  · intro hlen hid hdim
    have h2 : (ID_index + 1) * dim ≤ a.read_nodes_ids.length * dim :=
      Nat.mul_le_mul_right dim (by omega)
    rw [Nat.succ_mul] at h2
    omega

/-- Witness for C9: a buffer of four components, dim 2, vertex index 1. -/
theorem C9_read_with_ID_bounds_witness :
    read_on_quadrature_point_with_ID 2
      { mkAdapter ℚ 0 0 with read_data := [1, 2, 3, 4] } 1 =
      some ((List.range 2).map
        (fun d => ([1, 2, 3, 4] : List ℚ).getD (1 * 2 + d) 0)) :=
  ((C9_read_with_ID_bounds 2
    { mkAdapter ℚ 0 0 with read_data := [1, 2, 3, 4] } 1).1 (by decide)).1

/-- Claim C7 failing input: all three mesh-name options are set by the user
(none is left at its "default"), yet parse_parameters accepts the
configuration and silently overwrites both per-direction names with the
shared one, because the only guard in the shared-name branch is
mesh_name != read_mesh_name.  The code's own error message — specifying
both options is invalid — says this input must be rejected. -/
theorem C7_failing_input_eval :
    parse_parameters "Surface" "ReadSurface" "WriteSurface" =
      some ("Surface", "Surface") := by
  rfl

/-- Claim C2: starting from an empty vertex set, one run of
set_mesh_vertices for the read direction produces exactly N * Q vertex
handles, where N is the number of faces carrying the coupling boundary id
and Q the number of quadrature points per face; the handles are the N * Q
consecutively issued library handles, and the library registration log is
extended by exactly the matching faces in the deterministic traversal
order, with the Q points of each face consecutive and in quadrature-index
order. -/
theorem C2_enumeration_shape {V : Type} (a : AdapterState V)
    (p : PreciceState) (mesh : Mesh) (Q : Nat)
    (h : a.read_nodes_ids = []) :
    (set_mesh_vertices a p mesh Q true).1.read_nodes_ids.length =
      (mesh.faces.filter (faceMatches a.dealii_boundary_interface_id)).length * Q ∧
    (set_mesh_vertices a p mesh Q true).1.read_nodes_ids =
      List.range' p.next_vertex_id
        ((mesh.faces.filter (faceMatches a.dealii_boundary_interface_id)).length * Q) ∧
    (set_mesh_vertices a p mesh Q true).2.registered =
      p.registered ++ facesLog a.read_mesh_id mesh.qpoint Q
        (mesh.faces.filter (faceMatches a.dealii_boundary_interface_id)) := by
  simp [set_mesh_vertices, smvFaces_eq, h]

/-- Witness for C2: the sample mesh with interface id 7 and two quadrature
points per face has one matching face and yields the two consecutive
handles starting at the counter. -/
theorem C2_enumeration_shape_witness :
    (set_mesh_vertices (mkAdapter ℚ 7 0) freshPrecice sampleMesh 2 true).1.read_nodes_ids =
      List.range' freshPrecice.next_vertex_id
        ((sampleMesh.faces.filter
          (faceMatches (mkAdapter ℚ 7 0).dealii_boundary_interface_id)).length * 2) :=
  (C2_enumeration_shape (mkAdapter ℚ 7 0) freshPrecice sampleMesh 2 rfl).2.1

/-- Counterexample to claim C8 as stated: running the read-side enumeration
twice on the sample mesh (one matching face, one quadrature point) leaves
the vertex set holding the first run's handle 0 followed by the second
run's handle 1 — not only the handles of the second run, which would be
the one-element list [1]. -/
theorem C8_counterexample :
    (set_mesh_vertices
      (set_mesh_vertices (mkAdapter ℚ 7 0) freshPrecice sampleMesh 1 true).1
      (set_mesh_vertices (mkAdapter ℚ 7 0) freshPrecice sampleMesh 1 true).2
      sampleMesh 1 true).1.read_nodes_ids = [0, 1] ∧
    (set_mesh_vertices
      (set_mesh_vertices (mkAdapter ℚ 7 0) freshPrecice sampleMesh 1 true).1
      (set_mesh_vertices (mkAdapter ℚ 7 0) freshPrecice sampleMesh 1 true).2
      sampleMesh 1 true).1.read_nodes_ids ≠ [1] := by
  constructor
  · rfl
  · decide

/-- Claim C8 amended: re-running set_mesh_vertices for the read direction
does not discard previously stored handles: the vertex set after a run is
the set's previous contents with the new run's N * Q freshly issued
handles appended (the face-to-vertex map entries are overwritten with
offsets that include the old contents' length). -/
theorem C8_rerun_appends {V : Type} (a : AdapterState V) (p : PreciceState)
    (mesh : Mesh) (Q : Nat) :
    (set_mesh_vertices a p mesh Q true).1.read_nodes_ids =
      a.read_nodes_ids ++ List.range' p.next_vertex_id
        ((mesh.faces.filter (faceMatches a.dealii_boundary_interface_id)).length * Q) := by
  simp [set_mesh_vertices, smvFaces_eq]

/-- The quadrature loop of the write path consumes exactly k handles when
at least k remain, and never fails in that case. -/
theorem wqnPoints_drop (data_id : Nat) (vals : Nat → List ℚ) :
    ∀ (k q : Nat) (index : List Nat) (p : PreciceState), k ≤ index.length →
    ∃ p', wqnPoints data_id vals q k index p = some (index.drop k, p') := by
  intro k
  induction k with
  | zero => intro q index p _h; exact ⟨p, rfl⟩
  | succ k ih =>
    intro q index p h
    cases index with
    | nil => simp at h
    | cons x rest =>
      obtain ⟨p', hp⟩ :=
        ih (q + 1) rest (writeVectorData p data_id x (vals q)) (by simpa using h)
      exact ⟨p', by simp [wqnPoints, hp]⟩

/-- The face loop of the write path consumes exactly N * Q handles when at
least that many remain, and never hits the lockstep assertion in that
case. -/
theorem wqnFaces_drop (interface_id data_id : Nat)
    (vals : Nat → Nat → List ℚ) (Q : Nat) :
    ∀ (faces : List Face) (index : List Nat) (p : PreciceState),
    (faces.filter (faceMatches interface_id)).length * Q ≤ index.length →
    ∃ p', wqnFaces interface_id data_id vals Q faces index p =
      some (index.drop ((faces.filter (faceMatches interface_id)).length * Q), p') := by
  intro faces
  induction faces with
  | nil => intro index p _h; exact ⟨p, by simp [wqnFaces]⟩
  | cons f rest ih =>
    intro index p h
    by_cases hf : faceMatches interface_id f = true
    · rw [List.filter_cons_of_pos hf] at h ⊢
      rw [List.length_cons, Nat.succ_mul] at h ⊢
      have hQ : Q ≤ index.length := by omega
      obtain ⟨p1, hp1⟩ := wqnPoints_drop data_id (vals f.face_index) Q 0 index p hQ
      have hrest : (rest.filter (faceMatches interface_id)).length * Q ≤
          (index.drop Q).length := by
        rw [List.length_drop]; omega
      obtain ⟨p2, hp2⟩ := ih (index.drop Q) p1 hrest
      refine ⟨p2, ?_⟩
      simp only [wqnFaces, hf, if_true, hp1]
      rw [hp2, List.drop_drop, Nat.add_comm]
    · rw [List.filter_cons_of_neg (by simpa using hf)] at h ⊢
      obtain ⟨p', hp⟩ := ih index p h
      exact ⟨p', by simp only [wqnFaces, hf, if_false, Bool.false_eq_true, hp]⟩

/-- write_all_quadrature_nodes succeeds whenever the write vertex set is at
least as long as the traversal demands. -/
theorem wqn_some_of_le {V : Type} (a : AdapterState V) (p : PreciceState)
    (mesh : Mesh) (vals : Nat → Nat → List ℚ) (Q : Nat)
    (h : (mesh.faces.filter (faceMatches a.dealii_boundary_interface_id)).length * Q ≤
      a.write_nodes_ids.length) :
    ∃ p', write_all_quadrature_nodes a p mesh vals Q = some p' := by
  obtain ⟨p', hp⟩ := wqnFaces_drop a.dealii_boundary_interface_id
    a.write_data_id vals Q mesh.faces a.write_nodes_ids p h
  exact ⟨p', by simp [write_all_quadrature_nodes, hp]⟩

/-- Claim C5: when the write vertex set was built by set_mesh_vertices from
an empty set on the same mesh and the same quadrature rule, the lockstep
iterator of write_all_quadrature_nodes never runs past the end of the set
before the traversal completes: the assertion branch is unreachable and
the write path succeeds. -/
theorem C5_write_lockstep_never_past_end {V : Type} (a : AdapterState V)
    (p0 p : PreciceState) (mesh : Mesh) (vals : Nat → Nat → List ℚ) (Q : Nat)
    (h : a.write_nodes_ids = []) :
    ∃ p', write_all_quadrature_nodes ((set_mesh_vertices a p0 mesh Q false).1)
      p mesh vals Q = some p' := by
  apply wqn_some_of_le
  simp [set_mesh_vertices, smvFaces_eq, h]

/-- Witness for C5: the sample mesh with two quadrature points per face;
the freshly enumerated write set carries the traversal to completion. -/
theorem C5_write_lockstep_never_past_end_witness :
    ∃ p', write_all_quadrature_nodes
      ((set_mesh_vertices (mkAdapter ℚ 7 0) freshPrecice sampleMesh 2 false).1)
      freshPrecice sampleMesh (fun i q => [(i : ℚ), (q : ℚ)]) 2 = some p' :=
  C5_write_lockstep_never_past_end (mkAdapter ℚ 7 0) freshPrecice freshPrecice
    sampleMesh (fun i q => [(i : ℚ), (q : ℚ)]) 2 rfl

/-- The write path cannot fail while enough handles remain: the lockstep
assertion is only reachable when the write set is shorter than the
traversal demands. -/
theorem wqn_ne_none {V : Type} (a : AdapterState V) (p : PreciceState)
    (mesh : Mesh) (vals : Nat → Nat → List ℚ) (Q : Nat)
    (h : (mesh.faces.filter (faceMatches a.dealii_boundary_interface_id)).length * Q ≤
      a.write_nodes_ids.length) :
    write_all_quadrature_nodes a p mesh vals Q ≠ none := by
  obtain ⟨p', hp⟩ := wqn_some_of_le a p mesh vals Q h
  simp [hp]

set_option maxHeartbeats 1000000 in
/-- When both dimension guards pass, initializeAdapter on a freshly
constructed adapter reaches the enumeration and returns ok, with the write
and read vertex sets holding N * wq and N * rq handles respectively. -/
theorem initializeAdapter_ok_shape {V : Type} (dim precice_dims iid : Nat)
    (uninit : ℚ) (p : PreciceState) (mesh : Mesh) (wq rq : Nat)
    (mesh_ids data_ids : Nat × Nat) (flag : Bool)
    (vals : Nat → Nat → List ℚ) (incoming : Nat → ℚ)
    (h1 : dim = precice_dims) (h2 : 2 ≤ dim) :
    ∃ a' p',
      initializeAdapter dim precice_dims (mkAdapter V iid uninit) p mesh wq rq
        mesh_ids data_ids flag vals incoming = .ok (a', p') ∧
      a'.write_nodes_ids.length =
        (mesh.faces.filter (faceMatches iid)).length * wq ∧
      a'.read_nodes_ids.length =
        (mesh.faces.filter (faceMatches iid)).length * rq := by
  have hc1 : ¬ dim ≠ precice_dims := by omega
  have hc2 : ¬ dim ≤ 1 := by omega
  rw [initializeAdapter, if_neg hc1, if_neg hc2]
  simp only [set_mesh_vertices, smvFaces_eq, mkAdapter]
  simp
  cases flag with
  | false =>
    simp only [Bool.false_eq_true, if_false]
    exact ⟨_, ⟨_, rfl⟩, by simp, by simp⟩
  | true =>
    simp only [if_true]
    split
    · rename_i heq
      exact absurd heq (wqn_ne_none _ _ _ _ _ (by simp))
    · exact ⟨_, ⟨_, rfl⟩, by simp, by simp⟩

/-- Claim C4: initializeAdapter fails with a fatal error exactly when the
coupling library's spatial dimension differs from the solver's template
dimension or that dimension is below 2; when both checks pass it proceeds
to the interface enumeration, producing the write and read vertex sets of
the mesh. -/
theorem C4_initialize_dimension_guard {V : Type} (dim precice_dims iid : Nat)
    (uninit : ℚ) (p : PreciceState) (mesh : Mesh) (wq rq : Nat)
    (mesh_ids data_ids : Nat × Nat) (flag : Bool)
    (vals : Nat → Nat → List ℚ) (incoming : Nat → ℚ) :
    ((∃ e, initializeAdapter dim precice_dims (mkAdapter V iid uninit) p mesh
        wq rq mesh_ids data_ids flag vals incoming = .error e) ↔
      (dim ≠ precice_dims ∨ dim < 2)) ∧
    (∀ a' p', initializeAdapter dim precice_dims (mkAdapter V iid uninit) p
        mesh wq rq mesh_ids data_ids flag vals incoming = .ok (a', p') →
      a'.write_nodes_ids.length =
        (mesh.faces.filter (faceMatches iid)).length * wq ∧
      a'.read_nodes_ids.length =
        (mesh.faces.filter (faceMatches iid)).length * rq) := by
  by_cases h1 : dim = precice_dims
  · by_cases h2 : dim ≤ 1
    · have herr : initializeAdapter dim precice_dims (mkAdapter V iid uninit)
          p mesh wq rq mesh_ids data_ids flag vals incoming =
          .error "ExcNotImplemented" := by
        rw [initializeAdapter, if_neg (by omega), if_pos h2]
      constructor
      · exact ⟨fun _ => Or.inr (by omega), fun _ => ⟨_, herr⟩⟩
      · intro a' p' hok
        rw [herr] at hok
        simp at hok
    · obtain ⟨a', p', hok, hw, hr⟩ := initializeAdapter_ok_shape dim
        precice_dims iid uninit p mesh wq rq mesh_ids data_ids flag vals
        incoming h1 (by omega)
      constructor
      · constructor
        · rintro ⟨e, he⟩
          rw [hok] at he
          simp at he
        · rintro (hc | hc)
          · exact absurd h1 hc
          · omega
      · intro a2 p2 hok2
        rw [hok] at hok2
        simp only [Except.ok.injEq, Prod.mk.injEq] at hok2
        obtain ⟨ha, hb⟩ := hok2
        subst ha
        exact ⟨hw, hr⟩
  · have herr : ∃ e, initializeAdapter dim precice_dims (mkAdapter V iid uninit)
        p mesh wq rq mesh_ids data_ids flag vals incoming = .error e :=
      ⟨"The dimension of your solver needs to be consistent with the dimension specified in your precice-config file.",
       by rw [initializeAdapter, if_pos h1]⟩
    constructor
    · exact ⟨fun _ => Or.inl h1, fun _ => herr⟩
    · intro a' p' hok
      obtain ⟨e, he⟩ := herr
      rw [he] at hok
      simp at hok

/-- Witness for C4: solver dimension 3 against a 2-dimensional coupling
configuration is rejected with a fatal error. -/
theorem C4_initialize_dimension_guard_witness :
    (∃ e, initializeAdapter 3 2 (mkAdapter ℚ 7 0) freshPrecice sampleMesh 1 1
        (0, 1) (2, 3) false (fun _ _ => []) (fun _ => 0) = .error e) ↔
      ((3 : Nat) ≠ 2 ∨ (3 : Nat) < 2) :=
  (C4_initialize_dimension_guard 3 2 7 0 freshPrecice sampleMesh 1 1 (0, 1)
    (2, 3) false (fun _ _ => []) (fun _ => 0)).1

/-- Inserting a key absent from an association list appends the pair. -/
theorem mapInsert_fresh (m : List (Nat × Nat)) (k v : Nat)
    (h : k ∉ m.map Prod.fst) : mapInsert m k v = m ++ [(k, v)] := by
  induction m with
  | nil => rfl
  | cons e rest ih =>
    simp only [List.map_cons, List.mem_cons] at h
    push_neg at h
    obtain ⟨h1, h2⟩ := h
    simp [mapInsert, h1, ih h2]

/-- Looking up a key absent from an association list raises (none). -/
theorem mapAt_of_notMem (m : List (Nat × Nat)) (k : Nat)
    (h : k ∉ m.map Prod.fst) : mapAt m k = none := by
  induction m with
  | nil => rfl
  | cons e rest ih =>
    simp only [List.map_cons, List.mem_cons] at h
    push_neg at h
    obtain ⟨h1, h2⟩ := h
    simp [mapAt, h1, ih h2]

/-- The keys of the expected enumeration map are exactly the face indices
of the matching faces, in traversal order. -/
theorem expectedMap_keys (interface_id Q : Nat) :
    ∀ (faces : List Face) (start : Nat),
    (expectedMap interface_id Q faces start).map Prod.fst =
      (faces.filter (faceMatches interface_id)).map Face.face_index := by
  intro faces
  induction faces with
  | nil => intro start; rfl
  | cons f rest ih =>
    intro start
    by_cases hf : faceMatches interface_id f = true
    · simp [expectedMap, hf, List.filter_cons, ih]
    · simp [expectedMap, hf, List.filter_cons, ih]

/-- With pairwise-distinct matching face indices that are fresh for the
initial map, the face loop's map bookkeeping produces exactly the expected
map appended to the initial one. -/
theorem smvMapAux_expected (interface_id Q : Nat) :
    ∀ (faces : List Face) (len : Nat) (idmap : List (Nat × Nat)),
    ((faces.filter (faceMatches interface_id)).map Face.face_index).Nodup →
    (∀ f ∈ faces.filter (faceMatches interface_id),
      f.face_index ∉ idmap.map Prod.fst) →
    smvMapAux interface_id Q true faces len idmap =
      idmap ++ expectedMap interface_id Q faces len := by
  intro faces
  induction faces with
  | nil => intro len idmap _ _; simp [smvMapAux, expectedMap]
  | cons f rest ih =>
    intro len idmap hnd hfresh
    by_cases hf : faceMatches interface_id f = true
    · rw [List.filter_cons_of_pos hf] at hnd hfresh
      simp only [List.map_cons, List.nodup_cons] at hnd
      obtain ⟨hnotin, hnd'⟩ := hnd
      have hkfresh : f.face_index ∉ idmap.map Prod.fst :=
        hfresh f (List.mem_cons_self _ _)
      have hfresh' : ∀ g ∈ rest.filter (faceMatches interface_id),
          g.face_index ∉ (idmap ++ [(f.face_index, len)]).map Prod.fst := by
        intro g hg
        have hg1 : g.face_index ∉ idmap.map Prod.fst :=
          hfresh g (List.mem_cons_of_mem _ hg)
        have hg2 : g.face_index ≠ f.face_index := by
          intro he
          exact hnotin (he ▸ List.mem_map_of_mem Face.face_index hg)
        simp [hg1, hg2]
      simp only [smvMapAux, hf, if_true,
        mapInsert_fresh idmap f.face_index len hkfresh]
      rw [ih (len + Q) _ hnd' hfresh']
      simp [expectedMap, hf, List.append_assoc]
    · rw [List.filter_cons_of_neg (by simpa using hf)] at hnd hfresh
      simp only [smvMapAux, hf, Bool.false_eq_true, if_false]
      rw [ih len idmap hnd hfresh]
      simp [expectedMap, hf]

/-- Looking the i-th matching face up in the expected map yields the
offset start + i * Q. -/
theorem mapAt_expectedMap (interface_id Q : Nat) :
    ∀ (faces : List Face) (start : Nat),
    ((faces.filter (faceMatches interface_id)).map Face.face_index).Nodup →
    ∀ (i : Nat) (g : Face),
    (faces.filter (faceMatches interface_id)).get? i = some g →
    mapAt (expectedMap interface_id Q faces start) g.face_index =
      some (start + i * Q) := by
  intro faces
  induction faces with
  | nil => intro start _ i g hg; simp at hg
  | cons f rest ih =>
    intro start hnd i g hg
    by_cases hf : faceMatches interface_id f = true
    · rw [List.filter_cons_of_pos hf] at hnd hg
      simp only [List.map_cons, List.nodup_cons] at hnd
      obtain ⟨hnotin, hnd'⟩ := hnd
      cases i with
      | zero =>
        rw [List.get?_cons_zero] at hg
        obtain rfl : f = g := by simpa using hg
        simp [expectedMap, hf, mapAt]
      | succ j =>
        rw [List.get?_cons_succ] at hg
        have hne : g.face_index ≠ f.face_index := by
          intro he
          apply hnotin
          rw [← he]
          exact List.mem_map_of_mem Face.face_index (List.get?_mem hg)
        simp only [expectedMap, hf, if_true, mapAt, hne, if_false]
        rw [ih (start + Q) hnd' j g hg]
        congr 1
        ring
    · rw [List.filter_cons_of_neg (by simpa using hf)] at hnd hg
      simp only [expectedMap, hf, Bool.false_eq_true, if_false]
      exact ih start hnd i g hg

/-- Claim C10: after a read-side enumeration that started from an empty map
and an empty vertex set (with pairwise-distinct matching face indices, as
deal.II guarantees for distinct boundary faces), get_node_id on a face
identifier that was never recorded — any face not on the coupling
interface — raises the map-lookup exception (none) rather than returning a
value, and on the i-th recorded face returns the offset i * Q stored at
enumeration. -/
theorem C10_get_node_id_lookup {V : Type} (a : AdapterState V)
    (p : PreciceState) (mesh : Mesh) (Q : Nat)
    (h1 : a.read_id_map = []) (h2 : a.read_nodes_ids = [])
    (hnd : ((mesh.faces.filter
      (faceMatches a.dealii_boundary_interface_id)).map Face.face_index).Nodup) :
    (∀ fid, fid ∉ (mesh.faces.filter
        (faceMatches a.dealii_boundary_interface_id)).map Face.face_index →
      get_node_id (set_mesh_vertices a p mesh Q true).1 fid = none) ∧
    (∀ (i : Nat) (g : Face),
      (mesh.faces.filter (faceMatches a.dealii_boundary_interface_id)).get? i =
        some g →
      get_node_id (set_mesh_vertices a p mesh Q true).1 g.face_index =
        some (i * Q)) := by
  have hmap : (set_mesh_vertices a p mesh Q true).1.read_id_map =
      expectedMap a.dealii_boundary_interface_id Q mesh.faces 0 := by
    simp only [set_mesh_vertices, smvFaces_eq]
    simp [h1, h2]
    rw [smvMapAux_expected a.dealii_boundary_interface_id Q mesh.faces 0 []
      hnd (by simp)]
    simp
  constructor
  · intro fid hfid
    rw [get_node_id, hmap]
    apply mapAt_of_notMem
    rw [expectedMap_keys]
    exact hfid
  · intro i g hg
    rw [get_node_id, hmap]
    have := mapAt_expectedMap a.dealii_boundary_interface_id Q mesh.faces 0
      hnd i g hg
    simpa using this

/-- Witness for C10: on the sample mesh, face identifier 5 was never
recorded and raises, while the single matching face (index 0) maps to
offset 0. -/
theorem C10_get_node_id_lookup_witness :
    get_node_id (set_mesh_vertices (mkAdapter ℚ 7 0) freshPrecice
      sampleMesh 2 true).1 5 = none ∧
    get_node_id (set_mesh_vertices (mkAdapter ℚ 7 0) freshPrecice
      sampleMesh 2 true).1 0 = some (0 * 2) :=
  ⟨(C10_get_node_id_lookup (mkAdapter ℚ 7 0) freshPrecice sampleMesh 2
      rfl rfl (by decide)).1 5 (by decide),
   (C10_get_node_id_lookup (mkAdapter ℚ 7 0) freshPrecice sampleMesh 2
      rfl rfl (by decide)).2 0
      { at_boundary := true, boundary_id := 7, face_index := 0 } (by decide)⟩

end AdapterSMP
